/-
  Verification of src/coroutine_example.c — a Duff's-device coroutine that
  yields the doubled integers 0..9.

  Shallow embedding.  A `CoroutineState_t` is a pair of an `int resume_point`
  and a `void *data` pointer; the pointer is modelled as an opaque integer
  address (field `data`), and the `int32_t` counter it points to is threaded
  explicitly through every call as a separate argument/result.  One call to
  `coroutine_example` is a pure function from (state, counter) to
  (state, counter, optional returned value); the `none` result models the
  branch in which the C function falls off the end of the non-void function
  without executing any `return` statement (resume_point set to
  END_OF_SEQUENCE), so the returned int32 is unconstrained there.

  Expanding the macros, the C function is

      switch (state->resume_point) {
      case 0 :                                       -- START_OF_SEQUENCE
          for (*cnt = 0; *cnt < 10;) {
              state->resume_point = 107; return (*cnt * 2);
      case 107 :                                     -- the yield line
              (*cnt)++;
          }
      default:
          state->resume_point = -1; break;           -- END_OF_SEQUENCE
      }

  int32 arithmetic is modelled on ℤ with explicit two's-complement reduction
  `toInt32` wherever the C code computes an int32 value.
-/
import Mathlib

namespace Coroutine

/-- Two's-complement reduction of an integer to the int32 range. -/
def toInt32 (x : Int) : Int := (x + 2 ^ 31) % 2 ^ 32 - 2 ^ 31

/-- Sequence sentinel: `#define START_OF_SEQUENCE 0`. -/
def START_OF_SEQUENCE : Int := 0

/-- Sequence sentinel: `#define END_OF_SEQUENCE (-1)`. -/
def END_OF_SEQUENCE : Int := -1

/-- The value `__LINE__` takes at the single `COROUTINE_YIELD` in
`coroutine_example` (line 107 of src/coroutine_example.c): the unique
yield-site resume marker. -/
def YIELD_LINE : Int := 107

/-- `CoroutineState_t`: `resume_point` plus the user-data pointer, the
latter modelled as an opaque address value. -/
structure CoroutineState where
  resume_point : Int
  data : Int
  deriving Repr, DecidableEq

/-- `COROUTINE_INIT(s)` followed by attaching the counter storage at
address `ptr`: a fresh state with `resume_point = START_OF_SEQUENCE`. -/
def initState (ptr : Int) : CoroutineState :=
  { resume_point := START_OF_SEQUENCE, data := ptr }

/-- `COROUTINE_SEQUENCE_COMPLETE(s)`: `resume_point == END_OF_SEQUENCE`. -/
abbrev COROUTINE_SEQUENCE_COMPLETE (s : CoroutineState) : Prop :=
  s.resume_point = END_OF_SEQUENCE

/-- The body of `coroutine_example` with the loop bound left as a parameter
(the C source fixes it to 10).  Input: the state and the current value `cnt`
of the int32 counter `*(int32_t *)state->data`.  Output: the updated state,
the updated counter, and `some v` when a `return` statement fired with
value `v`, or `none` when control fell out through `COROUTINE_END` (the
function then falls off the end without a return). -/
def coroutine_body (bound : Int) (s : CoroutineState) (cnt : Int) :
    CoroutineState × Int × Option Int :=
  if s.resume_point = START_OF_SEQUENCE then
    -- case 0: run the loop initializer (*cnt = 0), test the condition
    let cnt0 : Int := 0
    if cnt0 < bound then
      ({ s with resume_point := YIELD_LINE }, cnt0, some (toInt32 (cnt0 * 2)))
    else
      ({ s with resume_point := END_OF_SEQUENCE }, cnt0, none)
  else if s.resume_point = YIELD_LINE then
    -- case 107: resume just after the yield, inside the loop body
    let cnt1 : Int := toInt32 (cnt + 1)
    if cnt1 < bound then
      ({ s with resume_point := YIELD_LINE }, cnt1, some (toInt32 (cnt1 * 2)))
    else
      ({ s with resume_point := END_OF_SEQUENCE }, cnt1, none)
  else
    -- default: COROUTINE_END
    ({ s with resume_point := END_OF_SEQUENCE }, cnt, none)

/-- `int32_t coroutine_example(CoroutineState_t *state)`: the body with the
source's loop bound 10. -/
def coroutine_example (s : CoroutineState) (cnt : Int) :
    CoroutineState × Int × Option Int :=
  coroutine_body 10 s cnt

/-- The (state, counter) pair after `n` successive calls to
`coroutine_example`, discarding the returned values. -/
def callTrace : Nat → CoroutineState × Int → CoroutineState × Int
  | 0, sc => sc
  | n + 1, sc =>
      callTrace n ((coroutine_example sc.1 sc.2).1, (coroutine_example sc.1 sc.2).2.1)

/-- The value returned by call number `n` (0-indexed) in the run that starts
from state `s` with counter value `c`. -/
def nthReturn (n : Nat) (s : CoroutineState) (c : Int) : Option Int :=
  (coroutine_example (callTrace n (s, c)).1 (callTrace n (s, c)).2).2.2

/-- The caller loop of `main`, fuel-bounded: repeatedly call
`coroutine_example`, break (printing nothing) as soon as
`COROUTINE_SEQUENCE_COMPLETE` holds of the updated state, otherwise record
the value the call returned and continue.  `none` means the fuel ran out
before the loop broke; `some outs` means the loop terminated having printed
exactly `outs`. -/
def runCalls : Nat → CoroutineState → Int → Option (List Int)
  | 0, _, _ => none
  | fuel + 1, s, c =>
      let r := coroutine_example s c
      if COROUTINE_SEQUENCE_COMPLETE r.1 then some []
      else (runCalls fuel r.1 r.2.1).map (fun rest => (r.2.2).getD 0 :: rest)

/-- `main`: `state_data = 0; COROUTINE_INIT(&state); state.data = &state_data;`
then the print loop, then `return 0`.  Result: the printed values and the
exit code, or `none` if the fuel ran out. -/
def mainResult (fuel : Nat) : Option (List Int × Int) :=
  (runCalls fuel (initState 0) 0).map (fun outs => (outs, 0))

/-- The equivalent non-suspendable loop, following the spec's words: for
counter = 0..9, emit `2 * counter`, run to completion in one pass. -/
def nonSuspendableLoop : List Int :=
  (List.range 10).map (fun counter => 2 * (counter : Int))

/-
  Proof-side decompositions.  The data pointer is opaque: the control part
  of a call (new resume point, new counter, returned value) depends only on
  the old resume point and the old counter.  The `ctrl` functions compute
  just that control part; the decomposition lemmas below prove them
  equivalent to the embedded source functions, and concrete facts about
  them are closed terms that `decide` can evaluate.
-/

/-- The control part of one call of `coroutine_example` (loop bound 10):
(resume point, counter) to (new resume point, new counter, returned
value), with the opaque data pointer projected away. -/
def ctrlStep (rp c : Int) : Int × Int × Option Int :=
  if rp = START_OF_SEQUENCE then
    let cnt0 : Int := 0
    if cnt0 < 10 then (YIELD_LINE, cnt0, some (toInt32 (cnt0 * 2)))
    else (END_OF_SEQUENCE, cnt0, none)
  else if rp = YIELD_LINE then
    let cnt1 : Int := toInt32 (c + 1)
    if cnt1 < 10 then (YIELD_LINE, cnt1, some (toInt32 (cnt1 * 2)))
    else (END_OF_SEQUENCE, cnt1, none)
  else (END_OF_SEQUENCE, c, none)

/-- The control part of `callTrace`. -/
def ctrlTrace : Nat → Int × Int → Int × Int
  | 0, rc => rc
  | n + 1, rc => ctrlTrace n ((ctrlStep rc.1 rc.2).1, (ctrlStep rc.1 rc.2).2.1)

/-- The control part of `runCalls`. -/
def ctrlRun : Nat → Int × Int → Option (List Int)
  | 0, _ => none
  | fuel + 1, rc =>
      if (ctrlStep rc.1 rc.2).1 = END_OF_SEQUENCE then some []
      else (ctrlRun fuel ((ctrlStep rc.1 rc.2).1, (ctrlStep rc.1 rc.2).2.1)).map
        (fun rest => ((ctrlStep rc.1 rc.2).2.2).getD 0 :: rest)

/-- Unfolding `initState`. -/
theorem initState_eq (ptr : Int) :
    initState ptr = ⟨START_OF_SEQUENCE, ptr⟩ := rfl

/-- One call of `coroutine_example` decomposes into its control part with
the data pointer carried through untouched. -/
theorem ctrlStep_decomp (rp d c : Int) :
    coroutine_example ⟨rp, d⟩ c = (⟨(ctrlStep rp c).1, d⟩, (ctrlStep rp c).2) := by
  unfold coroutine_example coroutine_body ctrlStep
  dsimp only
  split_ifs <;> rfl

/-- `callTrace` decomposes into its control part. -/
theorem ctrlTrace_decomp (n : Nat) : ∀ (rp d c : Int),
    callTrace n (⟨rp, d⟩, c) =
      (⟨(ctrlTrace n (rp, c)).1, d⟩, (ctrlTrace n (rp, c)).2) := by
  induction n with
  | zero => intro rp d c; rfl
  | succ n ih =>
      intro rp d c
      rw [callTrace, ctrlTrace]
      dsimp only
      rw [ctrlStep_decomp]
      dsimp only
      exact ih (ctrlStep rp c).1 d (ctrlStep rp c).2.1

/-- `runCalls` decomposes into its control part. -/
theorem ctrlRun_decomp (fuel : Nat) : ∀ (rp d c : Int),
    runCalls fuel ⟨rp, d⟩ c = ctrlRun fuel (rp, c) := by
  induction fuel with
  | zero => intro rp d c; rfl
  | succ fuel ih =>
      intro rp d c
      rw [runCalls, ctrlRun]
      dsimp only [COROUTINE_SEQUENCE_COMPLETE]
      rw [ctrlStep_decomp]
      dsimp only
      rw [ih]

/-- The first call ignores the incoming counter: the loop initializer
overwrites it with 0, the condition 0 < 10 holds, and the coroutine yields
0, suspended at the yield line. -/
theorem ctrlStep_start (c : Int) :
    ctrlStep START_OF_SEQUENCE c = (YIELD_LINE, 0, some 0) := rfl

/-- `ctrlTrace` after the first call from a fresh resume point. -/
theorem ctrlTrace_start (n : Nat) (c : Int) :
    ctrlTrace (n + 1) (START_OF_SEQUENCE, c) = ctrlTrace n (YIELD_LINE, 0) := by
  rw [ctrlTrace]
  dsimp only
  rw [ctrlStep_start]

/-- `nthReturn` from a fresh state, through the control decomposition. -/
theorem nthReturn_decomp (n : Nat) (ptr c : Int) :
    nthReturn n (initState ptr) c =
      (ctrlStep (ctrlTrace n (START_OF_SEQUENCE, c)).1
        (ctrlTrace n (START_OF_SEQUENCE, c)).2).2.2 := by
  unfold nthReturn
  rw [initState_eq, ctrlTrace_decomp]
  dsimp only
  rw [ctrlStep_decomp]

/-- The very first call of `coroutine_example` from a freshly initialized
state, for any incoming counter value. -/
theorem first_call (ptr c : Int) :
    coroutine_example (initState ptr) c =
      ({ resume_point := YIELD_LINE, data := ptr }, 0, some 0) := rfl

/-- `callTrace` after the first call from a fresh state. -/
theorem callTrace_first (n : Nat) (ptr c : Int) :
    callTrace (n + 1) (initState ptr, c) = callTrace n (⟨YIELD_LINE, ptr⟩, 0) := by
  rw [callTrace]
  dsimp only
  rw [first_call]

/-- Every call lands on the yield marker or on the end sentinel. -/
theorem step_resume_point (s : CoroutineState) (c : Int) :
    (coroutine_example s c).1.resume_point = YIELD_LINE ∨
    (coroutine_example s c).1.resume_point = END_OF_SEQUENCE := by
  unfold coroutine_example coroutine_body
  dsimp only
  split_ifs <;> simp

/-- A call on an exhausted state is the identity on state and counter and
executes no return statement. -/
theorem exhausted_step (s : CoroutineState) (c : Int)
    (h : s.resume_point = END_OF_SEQUENCE) :
    coroutine_example s c = (s, c, none) := by
  obtain ⟨rp, d⟩ := s
  dsimp only at h
  subst h
  rfl

/-- After any number of calls the resume point is the starting one, the
yield marker, or the end sentinel. -/
theorem trace_resume_point (n : Nat) (s : CoroutineState) (c : Int) :
    (callTrace n (s, c)).1.resume_point = s.resume_point ∨
    (callTrace n (s, c)).1.resume_point = YIELD_LINE ∨
    (callTrace n (s, c)).1.resume_point = END_OF_SEQUENCE := by
  induction n generalizing s c with
  | zero => left; rfl
  | succ n ih =>
      rw [callTrace]
      rcases ih (coroutine_example s c).1 (coroutine_example s c).2.1 with h | h | h
      · rcases step_resume_point s c with h2 | h2
        · right; left; rw [h]; exact h2
        · right; right; rw [h]; exact h2
      · right; left; exact h
      · right; right; exact h

/-- Extra fuel does not change a run that already terminated. -/
theorem ctrlRun_mono : ∀ (fuel1 fuel2 : Nat) (rc : Int × Int) (l : List Int),
    ctrlRun fuel1 rc = some l → fuel1 ≤ fuel2 → ctrlRun fuel2 rc = some l := by
  intro fuel1
  induction fuel1 with
  | zero =>
      intro fuel2 rc l h
      simp [ctrlRun] at h
  | succ f ih =>
      intro fuel2 rc l h hle
      obtain ⟨f2, rfl⟩ : ∃ f2, fuel2 = f2 + 1 := ⟨fuel2 - 1, by omega⟩
      rw [ctrlRun] at h ⊢
      by_cases hc : (ctrlStep rc.1 rc.2).1 = END_OF_SEQUENCE
      · rw [if_pos hc] at h ⊢; exact h
      · rw [if_neg hc] at h ⊢
        obtain ⟨l1, hl1, rfl⟩ := Option.map_eq_some'.mp h
        rw [ih f2 _ l1 hl1 (by omega)]
        rfl

/-- C1: from a freshly initialized state (resume_point = START_OF_SEQUENCE)
with an attached int32 counter, the n-th call (0-indexed, n = 0..9) to
coroutine_example returns 2*n, and on the 11th call the state observes
exhaustion (COROUTINE_SEQUENCE_COMPLETE, i.e. resume_point =
END_OF_SEQUENCE). -/
theorem coroutine_example_first_ten (ptr c0 : Int) (n : Nat) (h : n ≤ 9) :
    nthReturn n (initState ptr) c0 = some (2 * n) ∧
    COROUTINE_SEQUENCE_COMPLETE (callTrace 11 (initState ptr, c0)).1 := by
  constructor
  · rw [nthReturn_decomp]
    cases n with
    | zero =>
        dsimp only [ctrlTrace]
        rw [ctrlStep_start]
        norm_num
    | succ m =>
        rw [ctrlTrace_start]
        have hm : m ≤ 8 := by omega
        interval_cases m <;> decide
  · rw [initState_eq, ctrlTrace_decomp]
    dsimp only [COROUTINE_SEQUENCE_COMPLETE]
    show (ctrlTrace (10 + 1) (START_OF_SEQUENCE, c0)).1 = END_OF_SEQUENCE
    rw [ctrlTrace_start]
    decide

theorem coroutine_example_first_ten_witness :
    nthReturn 3 (initState 0) 5 = some (2 * ((3 : Nat) : Int)) ∧
    COROUTINE_SEQUENCE_COMPLETE (callTrace 11 (initState 0, 5)).1 :=
  coroutine_example_first_ten 0 5 3 (by decide)

/-- C2: running the coroutine from a fresh state until exhaustion yields
exactly the sequence of the equivalent non-suspendable loop (for counter =
0..9, emit 2*counter) run to completion in one pass: resuming continues the
same loop iteration without re-initializing the loop, so suspension and
resumption are observationally transparent to the produced sequence. -/
theorem coroutine_example_refines_loop (fuel : Nat) (ptr c0 : Int)
    (h : 11 ≤ fuel) :
    runCalls fuel (initState ptr) c0 = some nonSuspendableLoop := by
  rw [initState_eq, ctrlRun_decomp]
  have h1 : ctrlRun (10 + 1) (START_OF_SEQUENCE, c0) = some nonSuspendableLoop := by
    rw [ctrlRun]
    dsimp only
    rw [ctrlStep_start]
    decide
  exact ctrlRun_mono (10 + 1) fuel _ _ h1 (by omega)

theorem coroutine_example_refines_loop_witness :
    runCalls 11 (initState 0) 5 = some nonSuspendableLoop :=
  coroutine_example_refines_loop 11 0 5 (by decide)

/-- C3: on any state whose resume_point is END_OF_SEQUENCE, for any counter
value, calling coroutine_example any number of times is a safe idempotent
no-op: state and counter are unchanged, no value is produced, and
exhaustion is reported immediately. -/
theorem coroutine_example_exhausted_noop (s : CoroutineState) (c : Int)
    (n : Nat) (h : s.resume_point = END_OF_SEQUENCE) :
    callTrace n (s, c) = (s, c) ∧
    (coroutine_example s c).2.2 = none ∧
    COROUTINE_SEQUENCE_COMPLETE (coroutine_example s c).1 := by
  refine ⟨?_, ?_, ?_⟩
  · induction n with
    | zero => rfl
    | succ n ih =>
        rw [callTrace]
        dsimp only
        rw [exhausted_step s c h]
        exact ih
  · rw [exhausted_step s c h]
  · rw [exhausted_step s c h]; exact h

theorem coroutine_example_exhausted_noop_witness :
    callTrace 3 ((⟨END_OF_SEQUENCE, 0⟩ : CoroutineState), 5) =
      ((⟨END_OF_SEQUENCE, 0⟩ : CoroutineState), 5) ∧
    (coroutine_example ⟨END_OF_SEQUENCE, 0⟩ 5).2.2 = none ∧
    COROUTINE_SEQUENCE_COMPLETE (coroutine_example ⟨END_OF_SEQUENCE, 0⟩ 5).1 :=
  coroutine_example_exhausted_noop ⟨END_OF_SEQUENCE, 0⟩ 5 3 rfl

/-- C4: the step relation of coroutine_example respects the spec's state
machine: from NOT_STARTED a call reaches the yield marker or
END_OF_SEQUENCE; from the yield marker likewise; from END_OF_SEQUENCE only
END_OF_SEQUENCE; and every reachable resume_point from a fresh state is
START_OF_SEQUENCE (initially only), the unique yield-site marker, or
END_OF_SEQUENCE. -/
theorem coroutine_example_state_machine :
    (∀ (s : CoroutineState) (c : Int), s.resume_point = START_OF_SEQUENCE →
        (coroutine_example s c).1.resume_point = YIELD_LINE ∨
        (coroutine_example s c).1.resume_point = END_OF_SEQUENCE) ∧
    (∀ (s : CoroutineState) (c : Int), s.resume_point = YIELD_LINE →
        (coroutine_example s c).1.resume_point = YIELD_LINE ∨
        (coroutine_example s c).1.resume_point = END_OF_SEQUENCE) ∧
    (∀ (s : CoroutineState) (c : Int), s.resume_point = END_OF_SEQUENCE →
        (coroutine_example s c).1.resume_point = END_OF_SEQUENCE) ∧
    (∀ (ptr c0 : Int) (n : Nat),
        (callTrace n (initState ptr, c0)).1.resume_point = START_OF_SEQUENCE ∨
        (callTrace n (initState ptr, c0)).1.resume_point = YIELD_LINE ∨
        (callTrace n (initState ptr, c0)).1.resume_point = END_OF_SEQUENCE) := by
  refine ⟨fun s c _ => step_resume_point s c,
          fun s c _ => step_resume_point s c, ?_, ?_⟩
  · intro s c h
    rw [exhausted_step s c h]
    exact h
  · intro ptr c0 n
    rw [initState_eq]
    rcases trace_resume_point n ⟨START_OF_SEQUENCE, ptr⟩ c0 with h | h | h
    · left; rw [h]
    · right; left; exact h
    · right; right; exact h

theorem coroutine_example_state_machine_witness :
    (coroutine_example ⟨END_OF_SEQUENCE, 0⟩ 7).1.resume_point = END_OF_SEQUENCE :=
  coroutine_example_state_machine.2.2.1 ⟨END_OF_SEQUENCE, 0⟩ 7 rfl

/-- C5: resume_point = START_OF_SEQUENCE holds only before the first
invocation: every call overwrites resume_point with the yield-site marker
or END_OF_SEQUENCE, so after any call — in particular on any state
reachable from a fresh COROUTINE_INIT by one or more calls — resume_point
is never again START_OF_SEQUENCE. -/
theorem resume_point_never_start :
    (∀ (s : CoroutineState) (c : Int),
        (coroutine_example s c).1.resume_point ≠ START_OF_SEQUENCE) ∧
    (∀ (ptr c0 : Int) (n : Nat), 1 ≤ n →
        (callTrace n (initState ptr, c0)).1.resume_point ≠ START_OF_SEQUENCE) := by
  constructor
  · intro s c
    rcases step_resume_point s c with h | h <;> rw [h] <;> decide
  · intro ptr c0 n hn
    obtain ⟨m, rfl⟩ : ∃ m, n = m + 1 := ⟨n - 1, by omega⟩
    rw [callTrace_first]
    rcases trace_resume_point m ⟨YIELD_LINE, ptr⟩ 0 with h | h | h <;> rw [h]
    · show YIELD_LINE ≠ START_OF_SEQUENCE
      decide
    · decide
    · decide

theorem resume_point_never_start_witness :
    (callTrace 2 (initState 3, 9)).1.resume_point ≠ START_OF_SEQUENCE :=
  resume_point_never_start.2 3 9 2 (by decide)

/-- C6: a call to coroutine_example mutates at most resume_point and the
pointed-to counter: the data pointer field of the state itself is left
unchanged by every call, on every input state. -/
theorem coroutine_example_preserves_data (s : CoroutineState) (c : Int) :
    (coroutine_example s c).1.data = s.data := by
  unfold coroutine_example coroutine_body
  dsimp only
  split_ifs <;> rfl

/-- C7: coroutine_example is a total function of the embedding, and each
call either executes exactly one return statement producing a value
(`some`), or — exactly on the calls that set resume_point to
END_OF_SEQUENCE, i.e. when the body completes or the state was already
exhausted — executes no return statement at all (`none`, the C function
falling off the end with an unconstrained int32). -/
theorem coroutine_example_return_iff (s : CoroutineState) (c : Int) :
    (coroutine_example s c).2.2 = none ↔
      (coroutine_example s c).1.resume_point = END_OF_SEQUENCE := by
  unfold coroutine_example coroutine_body
  dsimp only
  split_ifs <;> norm_num [YIELD_LINE, END_OF_SEQUENCE]

/-- C8: main loops calling coroutine_example, detects exhaustion through
COROUTINE_SEQUENCE_COMPLETE on the state (not through the returned value),
prints exactly 0,2,4,6,8,10,12,14,16,18 — each produced value before
exhaustion and never the post-exhaustion return value — and terminates
normally with exit code 0 (for any fuel at least the 11 iterations the
loop actually makes). -/
theorem main_prints_doubles (fuel : Nat) (h : 11 ≤ fuel) :
    mainResult fuel = some ([0, 2, 4, 6, 8, 10, 12, 14, 16, 18], 0) := by
  unfold mainResult
  rw [initState_eq, ctrlRun_decomp]
  rw [ctrlRun_mono 11 fuel (START_OF_SEQUENCE, 0) [0, 2, 4, 6, 8, 10, 12, 14, 16, 18]
    (by decide) (by omega)]
  rfl

theorem main_prints_doubles_witness :
    mainResult 11 = some ([0, 2, 4, 6, 8, 10, 12, 14, 16, 18], 0) :=
  main_prints_doubles 11 (by decide)

/-- C9: with the loop bound generalized (the source fixes it to 10), a
zero-element sequence — the loop condition false on first entry — makes
the first call transition the fresh state directly from NOT_STARTED to
EXHAUSTED, producing no value. -/
theorem coroutine_body_zero_elements (bound ptr c0 : Int)
    (h : ¬(0 : Int) < bound) :
    (coroutine_body bound (initState ptr) c0).1.resume_point = END_OF_SEQUENCE ∧
    (coroutine_body bound (initState ptr) c0).2.2 = none := by
  rw [initState_eq]
  unfold coroutine_body
  dsimp only
  rw [if_pos rfl, if_neg h]
  exact ⟨rfl, rfl⟩

theorem coroutine_body_zero_elements_witness :
    (coroutine_body 0 (initState 7) 3).1.resume_point = END_OF_SEQUENCE ∧
    (coroutine_body 0 (initState 7) 3).2.2 = none :=
  coroutine_body_zero_elements 0 7 3 (by decide)

/-- C10: the value stored in the attached counter before the first call has
no effect on observable behavior: for any two initial counter values, the
returned value of every call and the state after every call from a fresh
state are identical, because the loop initializer run on the first call
unconditionally overwrites the counter with 0. -/
theorem counter_initial_value_irrelevant (ptr c0 c1 : Int) (n : Nat) :
    nthReturn n (initState ptr) c0 = nthReturn n (initState ptr) c1 ∧
    (callTrace n (initState ptr, c0)).1 = (callTrace n (initState ptr, c1)).1 := by
  cases n with
  | zero => exact ⟨rfl, rfl⟩
  | succ m =>
      constructor
      · unfold nthReturn
        rw [callTrace_first m ptr c0, callTrace_first m ptr c1]
      · rw [callTrace_first m ptr c0, callTrace_first m ptr c1]

end Coroutine
